import Mathlib

/-!
Verification of the WhatsApp HTTP gateway (src/WhatsApp.js) against its
natural-language specification.  The JavaScript source is shallowly embedded:
pure helpers become Lean functions, the global mutable state (connection
state, pairing code, inbound buffer) becomes explicit state passing, and the
external messaging client / file system are modelled as explicit environment
records consumed by the handlers.
-/

/-- JSON-like runtime value, the shape of an Express request body after JSON
parsing: strings, numbers, booleans, null, arrays and objects. -/
inductive JSValue where
  | vstr (s : String)
  | vnum (n : Int)
  | vbool (b : Bool)
  | vnull
  | varr (elems : List JSValue)
  | vobj (campos : List (String × JSValue))

/-- Control-character class removed by limpiarEntrada, the regex
[\x00-\x09\x0B\x0C\x0E-\x1F\x7F] (note: \x0A and \x0D are NOT removed). -/
def esControl (c : Char) : Bool :=
  (c.toNat ≤ 0x09) || (c.toNat = 0x0B) || (c.toNat = 0x0C) ||
  (0x0E ≤ c.toNat && c.toNat ≤ 0x1F) || (c.toNat = 0x7F)

/-- String cleaning done for each string-valued field inside limpiarEntrada:
valor.replace(/[\x00-\x09\x0B\x0C\x0E-\x1F\x7F]/g, '').substring(0, 10000). -/
def limpiarCadena (s : String) : String :=
  ⟨(s.data.filter (fun c => !esControl c)).take 10000⟩

mutual
/-- Treatment of one property value inside the for-in loop of limpiarEntrada:
strings are cleaned, objects and arrays are recursed into via limpiarEntrada,
and every other value is kept untouched. -/
def limpiarCampo : JSValue → JSValue
  | .vstr s => .vstr (limpiarCadena s)
  | .varr elems => .varr (limpiarListaCampos elems)
  | .vobj campos => .vobj (limpiarObjetoCampos campos)
  | v => v

/-- Field-wise cleaning of an array (for-in over its indices). -/
def limpiarListaCampos : List JSValue → List JSValue
  | [] => []
  | v :: vs => limpiarCampo v :: limpiarListaCampos vs

/-- Field-wise cleaning of an object (for-in over its own keys; keys are kept,
values are cleaned). -/
def limpiarObjetoCampos : List (String × JSValue) → List (String × JSValue)
  | [] => []
  | (k, v) :: kvs => (k, limpiarCampo v) :: limpiarObjetoCampos kvs
end

/-- limpiarEntrada(obj): if obj is not an object (and arrays are objects in
JS), it is returned unchanged -- in particular a top-level string is returned
verbatim; otherwise every own field is processed as in limpiarCampo. -/
def limpiarEntrada : JSValue → JSValue
  | .varr elems => .varr (limpiarListaCampos elems)
  | .vobj campos => .vobj (limpiarObjetoCampos campos)
  | v => v

/-- A string satisfies the sanitizer's postcondition: no control character of
the removed class and at most 10000 characters. -/
def cadenaLimpia (s : String) : Bool :=
  s.data.all (fun c => !esControl c) && s.data.length ≤ 10000

mutual
/-- Every string leaf of the value (the value itself when it is a string, and
recursively the values stored in arrays and objects) is clean. -/
def hojasLimpias : JSValue → Bool
  | .vstr s => cadenaLimpia s
  | .varr elems => hojasListaLimpias elems
  | .vobj campos => hojasObjetoLimpias campos
  | _ => true

/-- All string leaves of the listed values are clean. -/
def hojasListaLimpias : List JSValue → Bool
  | [] => true
  | v :: vs => hojasLimpias v && hojasListaLimpias vs

/-- All string leaves of the object's field values are clean. -/
def hojasObjetoLimpias : List (String × JSValue) → Bool
  | [] => true
  | (_, v) :: kvs => hojasLimpias v && hojasObjetoLimpias kvs
end

/-- Containers are the values limpiarEntrada recurses into. -/
def esContenedor : JSValue → Bool
  | .varr _ => true
  | .vobj _ => true
  | _ => false

/-- String discriminator for JSValue. -/
def esCadena : JSValue → Bool
  | .vstr _ => true
  | _ => false

/-- JavaScript regex whitespace class \s (the code points matched by /\s/). -/
def esEspacio (c : Char) : Bool :=
  c.toNat = 0x20 || c.toNat = 0x09 || c.toNat = 0x0A || c.toNat = 0x0D ||
  c.toNat = 0x0B || c.toNat = 0x0C || c.toNat = 0xA0 || c.toNat = 0x1680 ||
  (0x2000 ≤ c.toNat && c.toNat ≤ 0x200A) || c.toNat = 0x2028 ||
  c.toNat = 0x2029 || c.toNat = 0x202F || c.toNat = 0x205F ||
  c.toNat = 0x3000 || c.toNat = 0xFEFF

/-- numero.replace(/\s/g, ''). -/
def quitarEspacios (s : String) : String :=
  ⟨s.data.filter (fun c => !esEspacio c)⟩

/-- Character class of the pattern /^[\d\s\-\+\(\)]{7,20}$/. -/
def esCaracterPatron (c : Char) : Bool :=
  c.isDigit || esEspacio c || c = '-' || c = '+' || c = '(' || c = ')'

/-- Match of the whole pattern /^[\d\s\-\+\(\)]{7,20}$/ against a string. -/
def coincidePatronTelefono (s : String) : Bool :=
  s.data.all esCaracterPatron && 7 ≤ s.data.length && s.data.length ≤ 20

/-- validarNumeroTelefono(numero): tests the pattern against the number with
all whitespace removed. -/
def validarNumeroTelefono (numero : String) : Bool :=
  coincidePatronTelefono (quitarEspacios numero)

/-- Claims object signed into a token by /api/auth:
{usuario: 'api_user', permisos: ['enviar_mensajes', 'leer_mensajes']}. -/
structure DatosToken where
  usuario : String
  permisos : List String
deriving DecidableEq

/-- Signed JWT as produced by jwt.sign, modelled at the external library's
documented interface: the payload together with issue and expiry times
(seconds) and the signature, represented by the secret it binds to. -/
structure TokenJWT where
  datos : DatosToken
  iat : Nat
  exp : Nat
  firmaSecreto : String
deriving DecidableEq

/-- Token text arriving in a request header: either a well-formed signed token
or a malformed string that fails JWT decoding. -/
inductive TokenRecibido where
  | valido (t : TokenJWT)
  | malformado (texto : String)
deriving DecidableEq

/-- generarToken(datos) = jwt.sign(datos, JWT_SECRET, {expiresIn: '24h'}),
modelled from the library's documented behaviour: stamps iat with the current
time and exp = iat + 24 hours, and signs with the secret. -/
def generarToken (secreto : String) (ahora : Nat) (datos : DatosToken) : TokenJWT :=
  { datos := datos, iat := ahora, exp := ahora + 24 * 60 * 60, firmaSecreto := secreto }

/-- jwt.verify(token, JWT_SECRET), modelled from the library's documented
behaviour: throws (here .error) on a malformed token, a signature that does
not bind the given secret, or a current time at or past exp. -/
def jwtVerify (secreto : String) (ahora : Nat) :
    TokenRecibido → Except String DatosToken
  | .malformado _ => .error "jwt malformed"
  | .valido t =>
    if t.firmaSecreto ≠ secreto then .error "invalid signature"
    else if ahora ≥ t.exp then .error "jwt expired"
    else .ok t.datos

/-- verificarToken(token): try jwt.verify, catch and return null (none). -/
def verificarToken (secreto : String) (ahora : Nat) (token : TokenRecibido) :
    Option DatosToken :=
  match jwtVerify secreto ahora token with
  | .ok datos => some datos
  | .error _ => none

/-- Values taken by the estadoBot global: 'inicializando', 'esperando_qr',
'cargando_N', 'autenticado', 'conectado', 'desconectado',
'error_autenticacion'. -/
inductive EstadoBot where
  | inicializando
  | esperandoQR
  | cargando (porcentaje : Nat)
  | autenticado
  | conectado
  | desconectado
  | errorAutenticacion
deriving DecidableEq

/-- The three globals mutated by the cliente.on event handlers:
estadoBot, codigoQR and clienteListo. -/
structure EstadoServidor where
  estadoBot : EstadoBot
  codigoQR : Option String
  clienteListo : Bool
deriving DecidableEq

/-- Initial values of the globals: estadoBot = 'inicializando',
codigoQR = null, clienteListo = false. -/
def estadoInicial : EstadoServidor :=
  { estadoBot := .inicializando, codigoQR := none, clienteListo := false }

/-- Lifecycle events delivered by the external messaging client to the
cliente.on handlers. -/
inductive EventoCliente where
  | qr (codigo : String)
  | loadingScreen (porcentaje : Nat)
  | authenticated
  | authFailure
  | ready
  | disconnected
deriving DecidableEq

/-- Effect of each cliente.on lifecycle handler on the three globals,
transcribed handler by handler from the source: only the 'ready' and
'disconnected' handlers assign clienteListo; 'qr', 'loading_screen',
'authenticated' and 'auth_failure' leave it as it was. -/
def manejarEvento (s : EstadoServidor) : EventoCliente → EstadoServidor
  | .qr codigo => { s with codigoQR := some codigo, estadoBot := .esperandoQR }
  | .loadingScreen p => { s with estadoBot := .cargando p }
  | .authenticated => { s with estadoBot := .autenticado }
  | .authFailure => { s with estadoBot := .errorAutenticacion, codigoQR := none }
  | .ready => { s with clienteListo := true, estadoBot := .conectado, codigoQR := none }
  | .disconnected => { s with clienteListo := false, estadoBot := .desconectado, codigoQR := none }

/-- Raw inbound message as delivered by the external client: from, body,
author (present only in group chats) and id._serialized. -/
structure MensajeRaw where
  «from» : String
  body : String
  author : Option String
  idSerializado : String
deriving DecidableEq

/-- Contact returned by cliente.getContactById: name, pushname and id.user. -/
structure Contacto where
  nombre : Option String
  pushname : Option String
  idUser : String
deriving DecidableEq

/-- Outcome of the awaited external-client lookups inside the message
handler: chatResultado is the chat name from mensaje.getChat() (none when the
call threw, in which case the whole try-block is abandoned), and
contactoAutor the contact from cliente.getContactById (none when it threw or
returned null).  marcaTiempo is new Date().toISOString(). -/
structure EntornoMensaje where
  chatResultado : Option String
  contactoAutor : Option Contacto
  marcaTiempo : String
deriving DecidableEq

/-- infoMensaje record pushed onto mensajesEntrantes. -/
structure InfoMensaje where
  de : String
  cuerpo : String
  esGrupo : Bool
  nombreGrupo : String
  autor : String
  nombreAutor : String
  numeroAutor : String
  idMensaje : String
  marcaTiempo : String
deriving DecidableEq

/-- Construction of infoMensaje inside the cliente.on('message') handler:
base fields from the raw message (body capped at 1000 characters), then, for
group messages, the group name and author contact details filled in from the
awaited lookups when those succeed. -/
def construirInfoMensaje (env : EntornoMensaje) (m : MensajeRaw) : InfoMensaje :=
  let esGrupo := m.«from».endsWith "@g.us"
  let base : InfoMensaje :=
    { de := m.«from»
      cuerpo := ⟨m.body.data.take 1000⟩
      esGrupo := esGrupo
      nombreGrupo := ""
      autor := m.author.getD ""
      nombreAutor := ""
      numeroAutor := ""
      idMensaje := m.idSerializado
      marcaTiempo := env.marcaTiempo }
  if esGrupo then
    match env.chatResultado with
    | none => base
    | some nombreChat =>
      let conGrupo := { base with nombreGrupo := nombreChat }
      match m.author with
      | none => conGrupo
      | some _ =>
        match env.contactoAutor with
        | none => conGrupo
        | some contacto =>
          { conGrupo with
            nombreAutor := contacto.nombre.getD (contacto.pushname.getD "")
            numeroAutor := contacto.idUser }
  else base

/-- Body of the cliente.on('message') handler acting on the mensajesEntrantes
buffer: messages from 'status@broadcast' are dropped; otherwise the record is
pushed and, when the length exceeds 100, the buffer is replaced by its last
100 entries (slice(-100)). -/
def procesarMensaje (buf : List InfoMensaje) (env : EntornoMensaje)
    (m : MensajeRaw) : List InfoMensaje :=
  if m.«from» = "status@broadcast" then buf
  else
    let nuevo := buf ++ [construirInfoMensaje env m]
    if nuevo.length > 100 then nuevo.drop (nuevo.length - 100) else nuevo

/-- Folding a whole arrival sequence of raw messages (each with the
environment its handler run observed) over the buffer. -/
def procesarLista (buf : List InfoMensaje) :
    List (EntornoMensaje × MensajeRaw) → List InfoMensaje
  | [] => buf
  | par :: resto => procesarLista (procesarMensaje buf par.1 par.2) resto

/-- Records actually appended by an arrival sequence: the non-broadcast
messages, in arrival order, each turned into its infoMensaje record. -/
def agregados (pares : List (EntornoMensaje × MensajeRaw)) : List InfoMensaje :=
  (pares.filter (fun par => par.2.«from» ≠ "status@broadcast")).map
    (fun par => construirInfoMensaje par.1 par.2)

/-- Last n entries of a list, the meaning of slice(-n) for n ≥ 1. -/
def ultimos (n : Nat) (l : List α) : List α :=
  l.drop (l.length - n)

/-- Externally visible actions performed by the /api/enviar-mensaje handler:
the two calls to the external messaging client (cliente.isRegisteredUser and
cliente.sendMessage) and the two file-system checks on the attachment
(fs.existsSync and the fs.statSync size comparison). -/
inductive EventoEnvio where
  | consultaRegistro
  | verificaExistencia
  | verificaTamano
  | envioCliente
deriving DecidableEq

/-- Calls that go to the external messaging client. -/
def esLlamadaCliente : EventoEnvio → Bool
  | .consultaRegistro => true
  | .envioCliente => true
  | _ => false

/-- File checks on the attachment path. -/
def esVerificacionArchivo : EventoEnvio → Bool
  | .verificaExistencia => true
  | .verificaTamano => true
  | _ => false

/-- Environment the handler observes: the answer of isRegisteredUser, whether
the resolved attachment path exists, and its size in bytes. -/
structure EntornoEnvio where
  estaRegistrado : Bool
  archivoExiste : Bool
  tamanoArchivo : Nat
deriving DecidableEq

/-- Outcomes of the /api/enviar-mensaje handler body. -/
inductive RespuestaEnvio where
  | errorValidacion
  | noRegistrado
  | archivoNoExiste
  | archivoDemasiadoGrande
  | enviado (conArchivo : Bool)
deriving DecidableEq

/-- MAX_FILE_SIZE default: 10 (MB). -/
def MAX_FILE_SIZE : Nat := 10

/-- Body of the /api/enviar-mensaje handler after sanitization, in source
order: phone-format validation for individual destinations, then
cliente.isRegisteredUser for individual destinations, then -- only now --
the attachment existence and size checks, then cliente.sendMessage.  The
second component is the ordered trace of external actions performed.  (The
@c.us/@g.us chat-id suffixing is not modelled: it affects only the string
argument of the calls, not which calls happen or their order.) -/
def enviarMensaje (env : EntornoEnvio) (destino : String) (esGrupo : Bool)
    (rutaArchivo : Option String) : RespuestaEnvio × List EventoEnvio :=
  if !esGrupo && !validarNumeroTelefono destino then (.errorValidacion, [])
  else
    let trazaRegistro : List EventoEnvio := if esGrupo then [] else [.consultaRegistro]
    if !esGrupo && !env.estaRegistrado then (.noRegistrado, trazaRegistro)
    else
      match rutaArchivo with
      | some _ =>
        if !env.archivoExiste then
          (.archivoNoExiste, trazaRegistro ++ [.verificaExistencia])
        else if env.tamanoArchivo > MAX_FILE_SIZE * 1024 * 1024 then
          (.archivoDemasiadoGrande, trazaRegistro ++ [.verificaExistencia, .verificaTamano])
        else
          (.enviado true, trazaRegistro ++ [.verificaExistencia, .verificaTamano, .envioCliente])
      | none => (.enviado false, trazaRegistro ++ [.envioCliente])

/-- Ordering predicate on traces: after every event selected by objetivo, no
attachment file check occurs -- equivalently, every file check precedes every
objetivo event. -/
def sinVerificacionDespues (objetivo : EventoEnvio → Bool) :
    List EventoEnvio → Bool
  | [] => true
  | e :: resto =>
    (if objetivo e then resto.all (fun x => !esVerificacionArchivo x) else true)
      && sinVerificacionDespues objetivo resto

/-- JSON error replies of the API: HTTP status, the success flag, the error
text, and the estado field attached by the connection-check middleware. -/
structure RespuestaHTTP where
  codigo : Nat
  exito : Bool
  error : String
  estado : Option EstadoBot := none
deriving DecidableEq

/-- Error classification used by the global error handler:
error.type === 'entity.too.large' against everything else. -/
inductive TipoErrorInterno where
  | entidadDemasiadoGrande
  | otro
deriving DecidableEq

/-- Internal exception reaching a catch block or the global handler: its type
tag and its message text. -/
structure ErrorInterno where
  tipo : TipoErrorInterno
  mensaje : String
deriving DecidableEq

/-- Global error handler app.use((error, req, res, next) => ...): 413 with a
fixed body for oversized payloads, otherwise 500 with the fixed generic body
'Error interno del servidor'; error.message is never copied into either. -/
def manejadorErrores (e : ErrorInterno) : RespuestaHTTP :=
  if e.tipo = .entidadDemasiadoGrande then
    { codigo := 413, exito := false, error := "Payload demasiado grande" }
  else
    { codigo := 500, exito := false, error := "Error interno del servidor" }

/-- Catch block of /api/enviar-mensaje: responds 500 with
'Error al enviar mensaje: ' + error.message. -/
def capturaEnviarMensaje (e : ErrorInterno) : RespuestaHTTP :=
  { codigo := 500, exito := false, error := "Error al enviar mensaje: " ++ e.mensaje }

/-- Catch block of /api/grupos (likewise /api/contactos,
/api/mensajes-recibidos and /api/verificar-numero): responds 500 with
error.message itself as the body's error field. -/
def capturaGrupos (e : ErrorInterno) : RespuestaHTTP :=
  { codigo := 500, exito := false, error := e.mensaje }

/-- requiereAutenticacion middleware: 401 when no token is presented, 401
when verificarToken returns null, and pass-through (none) otherwise.  The
permisos carried by the token are stored on the request but never read. -/
def requiereAutenticacion (secreto : String) (ahora : Nat)
    (encabezado : Option TokenRecibido) : Option RespuestaHTTP :=
  match encabezado with
  | none => some { codigo := 401, exito := false, error := "Token de autenticación requerido" }
  | some token =>
    match verificarToken secreto ahora token with
    | none => some { codigo := 401, exito := false, error := "Token inválido o expirado" }
    | some _ => none

/-- requiereConexion middleware: 503 carrying the current estadoBot whenever
clienteListo is false or estadoBot is not 'conectado'; pass-through (none)
otherwise. -/
def requiereConexion (s : EstadoServidor) : Option RespuestaHTTP :=
  if s.clienteListo = false ∨ s.estadoBot ≠ .conectado then
    some { codigo := 503, exito := false, error := "WhatsApp no está conectado",
           estado := some s.estadoBot }
  else none

/-- HTTP mapping of the handler-body outcomes of /api/enviar-mensaje. -/
def respuestaDeEnvio : RespuestaEnvio → RespuestaHTTP
  | .errorValidacion =>
    { codigo := 400, exito := false, error := "Formato de número de teléfono inválido" }
  | .noRegistrado =>
    { codigo := 400, exito := false, error := "El número no está registrado en WhatsApp" }
  | .archivoNoExiste =>
    { codigo := 400, exito := false, error := "El archivo no existe" }
  | .archivoDemasiadoGrande =>
    { codigo := 400, exito := false, error := "El archivo es demasiado grande. Máximo 10MB" }
  | .enviado _ =>
    { codigo := 200, exito := true, error := "" }

/-- POST /api/enviar-mensaje middleware chain after the rate limiter:
requiereAutenticacion, then requiereConexion, then the handler body. -/
def rutaEnviarMensaje (secreto : String) (ahora : Nat)
    (encabezado : Option TokenRecibido) (s : EstadoServidor)
    (env : EntornoEnvio) (destino : String) (esGrupo : Bool)
    (rutaArchivo : Option String) : RespuestaHTTP :=
  match requiereAutenticacion secreto ahora encabezado with
  | some r => r
  | none =>
    match requiereConexion s with
    | some r => r
    | none => respuestaDeEnvio (enviarMensaje env destino esGrupo rutaArchivo).1

/-- Reply of GET /api/mensajes-recibidos: with limpiar=true the body reports
only mensajesLimpiados and the count mensajesEliminados; without it the body
carries the buffered mensajes. -/
inductive RespuestaMensajes where
  | limpiados (mensajesEliminados : Nat)
  | instantanea (mensajes : List InfoMensaje)
deriving DecidableEq

/-- Handler of GET /api/mensajes-recibidos acting on the mensajesEntrantes
buffer: limpiar=true copies the buffer, empties it and replies with the count
of removed records; otherwise it replies with the buffer and leaves it
unchanged.  Returns (reply, buffer afterwards). -/
def mensajesRecibidos (limpiar : Bool) (buf : List InfoMensaje) :
    RespuestaMensajes × List InfoMensaje :=
  if limpiar then (.limpiados buf.length, [])
  else (.instantanea buf, buf)

/-- Sequence of records actually delivered in a reply: none at all for the
limpiar=true reply, the snapshot for the other. -/
def mensajesDevueltos : RespuestaMensajes → List InfoMensaje
  | .limpiados _ => []
  | .instantanea ms => ms

/-- GET /api/mensajes-recibidos middleware chain: requiereAutenticacion and
then the handler; there is no requiereConexion step, so the server state s is
never consulted by this route. -/
def rutaMensajesRecibidos (secreto : String) (ahora : Nat)
    (encabezado : Option TokenRecibido) (s : EstadoServidor) (limpiar : Bool)
    (buf : List InfoMensaje) : (RespuestaHTTP ⊕ RespuestaMensajes) × List InfoMensaje :=
  match requiereAutenticacion secreto ahora encabezado with
  | some r => (.inl r, buf)
  | none =>
    let res := mensajesRecibidos limpiar buf
    (.inr res.1, res.2)

/-- Replacement of the permisos list inside a signed token, leaving subject,
times and signature untouched. -/
def conPermisos (t : TokenJWT) (permisos : List String) : TokenJWT :=
  { t with datos := { t.datos with permisos := permisos } }

/-- Character class stated by the spec for cleaned phone numbers: digits and
the symbols + - ( ) only (no whitespace).  Used to compare the source's
pattern against the spec's words. -/
def esPermitidoTelefono (c : Char) : Bool :=
  c.isDigit || c = '-' || c = '+' || c = '(' || c = ')'

/-- Concrete individual (non-broadcast) raw message used in closed witness
instances. -/
def mensajeIndividual : MensajeRaw :=
  { «from» := "1@c.us", body := "hola", author := none, idSerializado := "id1" }

/-- Concrete broadcast raw message used in closed witness instances. -/
def mensajeBroadcast : MensajeRaw :=
  { «from» := "status@broadcast", body := "b", author := none, idSerializado := "id0" }

/-- Concrete message-handler environment used in closed witness instances. -/
def entornoTrivial : EntornoMensaje :=
  { chatResultado := none, contactoAutor := none, marcaTiempo := "t" }

theorem cadenaLimpia_limpiarCadena (s : String) :
    cadenaLimpia (limpiarCadena s) = true := by
  unfold cadenaLimpia limpiarCadena
  refine (Bool.and_eq_true _ _).mpr ⟨?_, ?_⟩
  · rw [List.all_eq_true]
    intro c hc
    exact (List.mem_filter.mp (List.mem_of_mem_take hc)).2
  · have h := List.length_take_le 10000 (s.data.filter (fun c => !esControl c))
    exact decide_eq_true h

mutual
theorem hojasLimpias_limpiarCampo : ∀ v, hojasLimpias (limpiarCampo v) = true
  | .vstr s => by
    simp only [limpiarCampo, hojasLimpias]
    exact cadenaLimpia_limpiarCadena s
  | .varr elems => by
    simp only [limpiarCampo, hojasLimpias]
    exact hojasListaLimpias_limpiar elems
  | .vobj campos => by
    simp only [limpiarCampo, hojasLimpias]
    exact hojasObjetoLimpias_limpiar campos
  | .vnum _ => rfl
  | .vbool _ => rfl
  | .vnull => rfl

theorem hojasListaLimpias_limpiar :
    ∀ vs, hojasListaLimpias (limpiarListaCampos vs) = true
  | [] => rfl
  | v :: vs => by
    simp only [limpiarListaCampos, hojasListaLimpias, Bool.and_eq_true]
    exact ⟨hojasLimpias_limpiarCampo v, hojasListaLimpias_limpiar vs⟩

theorem hojasObjetoLimpias_limpiar :
    ∀ kvs, hojasObjetoLimpias (limpiarObjetoCampos kvs) = true
  | [] => rfl
  | (_, v) :: kvs => by
    simp only [limpiarObjetoCampos, hojasObjetoLimpias, Bool.and_eq_true]
    exact ⟨hojasLimpias_limpiarCampo v, hojasObjetoLimpias_limpiar kvs⟩
end

/-- C2: false as stated.  limpiarEntrada returns any non-object input
unchanged, so a top-level string consisting of a single NUL character passes
through verbatim and the result still has a string leaf containing a control
character. -/
theorem C2_sanitizer_counterexample :
    ¬ (∀ v : JSValue, hojasLimpias (limpiarEntrada v) = true) := fun h =>
  absurd (h (.vstr ⟨['\x00']⟩)) (by decide)

/-- C2 (amended): for every object or array payload, every string leaf of the
sanitized result contains no control character of the class
0x00-0x09, 0x0B-0x0C, 0x0E-0x1F, 0x7F and has at most 10000 characters, and
the same holds for every value processed as a field inside a container; a
non-container payload -- including a top-level string -- passes through
unchanged, as does every non-string non-container leaf inside a container. -/
theorem C2_sanitizer_amended :
    (∀ v : JSValue, esContenedor v = true → hojasLimpias (limpiarEntrada v) = true) ∧
    (∀ v : JSValue, hojasLimpias (limpiarCampo v) = true) ∧
    (∀ v : JSValue, esContenedor v = false → limpiarEntrada v = v) ∧
    (∀ v : JSValue, esContenedor v = false → esCadena v = false → limpiarCampo v = v) := by
  refine ⟨?_, hojasLimpias_limpiarCampo, ?_, ?_⟩
  · intro v hv
    cases v with
    | varr elems =>
      simp only [limpiarEntrada, hojasLimpias]
      exact hojasListaLimpias_limpiar elems
    | vobj campos =>
      simp only [limpiarEntrada, hojasLimpias]
      exact hojasObjetoLimpias_limpiar campos
    | vstr s => exact absurd hv (by simp [esContenedor])
    | vnum n => exact absurd hv (by simp [esContenedor])
    | vbool b => exact absurd hv (by simp [esContenedor])
    | vnull => exact absurd hv (by simp [esContenedor])
  · intro v hv
    cases v with
    | varr elems => exact absurd hv (by simp [esContenedor])
    | vobj campos => exact absurd hv (by simp [esContenedor])
    | vstr s => rfl
    | vnum n => rfl
    | vbool b => rfl
    | vnull => rfl
  · intro v hv hs
    cases v with
    | varr elems => exact absurd hv (by simp [esContenedor])
    | vobj campos => exact absurd hv (by simp [esContenedor])
    | vstr s => exact absurd hs (by simp [esCadena])
    | vnum n => rfl
    | vbool b => rfl
    | vnull => rfl

/-- Witness for C2_sanitizer_amended at a concrete payload: an object holding
a string field with a control character and an overlong tail, a number field,
and a top-level number. -/
theorem C2_sanitizer_amended_witness :
    esContenedor (JSValue.vobj [("a", .vstr ⟨['\x01', 'b']⟩), ("n", .vnum 7)]) = true ∧
    hojasLimpias (limpiarEntrada (JSValue.vobj [("a", .vstr ⟨['\x01', 'b']⟩), ("n", .vnum 7)])) = true ∧
    esContenedor (JSValue.vnum 7) = false ∧
    limpiarEntrada (JSValue.vnum 7) = JSValue.vnum 7 ∧
    esCadena (JSValue.vnum 7) = false ∧
    limpiarCampo (JSValue.vnum 7) = JSValue.vnum 7 :=
  ⟨by decide,
   C2_sanitizer_amended.1 (JSValue.vobj [("a", .vstr ⟨['\x01', 'b']⟩), ("n", .vnum 7)]) (by decide),
   by decide,
   C2_sanitizer_amended.2.2.1 (JSValue.vnum 7) (by decide),
   by decide,
   C2_sanitizer_amended.2.2.2 (JSValue.vnum 7) (by decide) (by decide)⟩

theorem digit_no_espacio (c : Char) (h : c.isDigit = true) : esEspacio c = false := by
  have h1 : 48 ≤ c.toNat ∧ c.toNat ≤ 57 := by
    unfold Char.isDigit at h
    rw [Bool.and_eq_true, decide_eq_true_eq, decide_eq_true_eq] at h
    exact ⟨h.1, h.2⟩
  unfold esEspacio
  simp only [Bool.or_eq_false_iff, Bool.and_eq_false_iff, decide_eq_false_iff_not]
  omega

theorem quitarEspacios_sin_espacios (s : String) (c : Char)
    (hc : c ∈ (quitarEspacios s).data) : esEspacio c = false := by
  have h : (!esEspacio c) = true := (List.mem_filter.mp hc).2
  simpa using h

theorem all_patron_de_all_permitido (l : List Char)
    (h : ∀ c ∈ l, esEspacio c = false) :
    l.all esCaracterPatron = l.all esPermitidoTelefono := by
  induction l with
  | nil => rfl
  | cons c resto ih =>
    simp only [List.all_cons]
    rw [ih (fun x hx => h x (List.mem_cons_of_mem _ hx))]
    have hc := h c (List.mem_cons_self c resto)
    unfold esCaracterPatron esPermitidoTelefono
    rw [hc]
    simp

/-- C7: the phone-number validator accepts a number exactly when its
whitespace-stripped form consists only of digits and the symbols + - ( )
with length between 7 and 20; in particular it accepts "+1 (555) 123-4567"
and rejects "abc" and every 25-character digit string. -/
theorem C7_telefono :
    (∀ numero : String,
      validarNumeroTelefono numero = true ↔
        ((quitarEspacios numero).data.all esPermitidoTelefono = true ∧
         7 ≤ (quitarEspacios numero).data.length ∧
         (quitarEspacios numero).data.length ≤ 20)) ∧
    validarNumeroTelefono "+1 (555) 123-4567" = true ∧
    validarNumeroTelefono "abc" = false ∧
    (∀ numero : String, numero.data.length = 25 →
      numero.data.all Char.isDigit = true → validarNumeroTelefono numero = false) := by
  refine ⟨?_, by decide, by decide, ?_⟩
  · intro numero
    unfold validarNumeroTelefono coincidePatronTelefono
    rw [all_patron_de_all_permitido _ (fun c hc => quitarEspacios_sin_espacios numero c hc)]
    simp only [Bool.and_eq_true, decide_eq_true_eq]
    tauto
  · intro numero hlen hdig
    have hfil : numero.data.filter (fun c => !esEspacio c) = numero.data := by
      rw [List.filter_eq_self]
      intro c hc
      have hd : c.isDigit = true := by
        have := List.all_eq_true.mp hdig c hc
        simpa using this
      simp [digit_no_espacio c hd]
    unfold validarNumeroTelefono quitarEspacios coincidePatronTelefono
    rw [hfil, show ((⟨numero.data⟩ : String).data = numero.data) from rfl]
    simp [hlen]

/-- Witness for C7_telefono at concrete inputs: the all-ones 25-digit string
is rejected and a plain 12-digit international number is accepted. -/
theorem C7_telefono_witness :
    (String.mk (List.replicate 25 '1')).data.length = 25 ∧
    (String.mk (List.replicate 25 '1')).data.all Char.isDigit = true ∧
    validarNumeroTelefono (String.mk (List.replicate 25 '1')) = false ∧
    validarNumeroTelefono "+34600123456" = true :=
  ⟨by decide, by decide,
   C7_telefono.2.2.2 (String.mk (List.replicate 25 '1')) (by decide) (by decide),
   (C7_telefono.1 "+34600123456").mpr (by decide)⟩

/-- C8: verification fails closed: a malformed token, a signature for another
secret, or a current time at or past exp all yield the null sentinel (the
catch in verificarToken converts every jwt.verify throw into null, so the
caller never sees an exception); a freshly issued token verifies to its
claims, and verification fails as soon as the clock reaches issuance plus 24
hours. -/
theorem C8_token (secreto : String) (ahora : Nat) :
    (∀ texto, verificarToken secreto ahora (.malformado texto) = none) ∧
    (∀ t : TokenJWT, t.firmaSecreto ≠ secreto →
      verificarToken secreto ahora (.valido t) = none) ∧
    (∀ t : TokenJWT, t.exp ≤ ahora →
      verificarToken secreto ahora (.valido t) = none) ∧
    (∀ datos, verificarToken secreto ahora
      (.valido (generarToken secreto ahora datos)) = some datos) ∧
    (∀ datos despues, ahora + 24 * 60 * 60 ≤ despues →
      verificarToken secreto despues (.valido (generarToken secreto ahora datos)) = none) := by
  refine ⟨fun _ => rfl, ?_, ?_, ?_, ?_⟩
  · intro t h
    simp [verificarToken, jwtVerify, h]
  · intro t h
    by_cases hf : t.firmaSecreto = secreto
    · simp [verificarToken, jwtVerify, hf, Nat.le_of_eq, h]
    · simp [verificarToken, jwtVerify, hf]
  · intro datos
    simp [verificarToken, jwtVerify, generarToken]
  · intro datos despues h
    simp [verificarToken, jwtVerify, generarToken, h]

/-- Witness for C8_token at concrete tokens and times. -/
theorem C8_token_witness :
    verificarToken "s" 0 (.malformado "xx") = none ∧
    ({ datos := ⟨"u", []⟩, iat := 0, exp := 86400, firmaSecreto := "otro" } : TokenJWT).firmaSecreto ≠ "s" ∧
    verificarToken "s" 0
      (.valido { datos := ⟨"u", []⟩, iat := 0, exp := 86400, firmaSecreto := "otro" }) = none ∧
    ({ datos := ⟨"u", []⟩, iat := 0, exp := 10, firmaSecreto := "s" } : TokenJWT).exp ≤ 20 ∧
    verificarToken "s" 20
      (.valido { datos := ⟨"u", []⟩, iat := 0, exp := 10, firmaSecreto := "s" }) = none ∧
    verificarToken "s" 5
      (.valido (generarToken "s" 5 ⟨"api_user", ["enviar_mensajes", "leer_mensajes"]⟩)) =
      some ⟨"api_user", ["enviar_mensajes", "leer_mensajes"]⟩ ∧
    5 + 24 * 60 * 60 ≤ 90000 ∧
    verificarToken "s" 90000
      (.valido (generarToken "s" 5 ⟨"api_user", ["enviar_mensajes", "leer_mensajes"]⟩)) = none :=
  ⟨(C8_token "s" 0).1 "xx",
   by decide,
   (C8_token "s" 0).2.1 _ (by decide),
   by decide,
   (C8_token "s" 20).2.2.1 _ (by decide),
   (C8_token "s" 5).2.2.2.1 _,
   by decide,
   (C8_token "s" 5).2.2.2.2 _ 90000 (by decide)⟩

/-- C4: false as stated.  After the 'ready' handler has run, the
'authenticated' handler moves estadoBot away from 'conectado' but leaves
clienteListo true: entering a state other than ready does not clear the
connected flag. -/
theorem C4_conectado_counterexample :
    ¬ (∀ (s : EstadoServidor) (e : EventoCliente),
        ((manejarEvento s e).estadoBot = .conectado →
          (manejarEvento s e).clienteListo = true ∧
          (manejarEvento s e).codigoQR = none) ∧
        ((manejarEvento s e).estadoBot ≠ .conectado →
          (manejarEvento s e).clienteListo = false)) := fun h =>
  absurd
    ((h { estadoBot := .conectado, codigoQR := none, clienteListo := true }
        .authenticated).2 (by decide))
    (by decide)

/-- C4 (amended): the 'ready' handler sets the connected flag and clears the
pairing code, the 'disconnected' handler clears the connected flag, and every
other handler (qr, loading_screen, authenticated, auth_failure) leaves the
connected flag exactly as it was. -/
theorem C4_conectado_amended (s : EstadoServidor) (e : EventoCliente) :
    (e = .ready → manejarEvento s e =
      { estadoBot := .conectado, codigoQR := none, clienteListo := true }) ∧
    (e = .disconnected → manejarEvento s e =
      { estadoBot := .desconectado, codigoQR := none, clienteListo := false }) ∧
    (e ≠ .ready → e ≠ .disconnected →
      (manejarEvento s e).clienteListo = s.clienteListo) := by
  refine ⟨fun h1 => ?_, fun h2 => ?_, fun h3 h4 => ?_⟩
  · subst h1; rfl
  · subst h2; rfl
  · cases e
    case ready => exact absurd rfl h3
    case disconnected => exact absurd rfl h4
    all_goals rfl

/-- Witness for C4_conectado_amended at concrete states and events. -/
theorem C4_conectado_amended_witness :
    manejarEvento estadoInicial .ready =
      { estadoBot := .conectado, codigoQR := none, clienteListo := true } ∧
    manejarEvento { estadoBot := .conectado, codigoQR := none, clienteListo := true }
      .disconnected =
      { estadoBot := .desconectado, codigoQR := none, clienteListo := false } ∧
    EventoCliente.authenticated ≠ .ready ∧
    EventoCliente.authenticated ≠ .disconnected ∧
    (manejarEvento { estadoBot := .conectado, codigoQR := none, clienteListo := true }
      .authenticated).clienteListo = true :=
  ⟨(C4_conectado_amended estadoInicial .ready).1 rfl,
   (C4_conectado_amended _ .disconnected).2.1 rfl,
   by decide, by decide,
   (C4_conectado_amended
     { estadoBot := .conectado, codigoQR := none, clienteListo := true }
     .authenticated).2.2 (by decide) (by decide)⟩

/-- C1: false as stated.  With limpiar=true the reply reports only the count
of removed records: on a buffer holding one record the sequence of records
delivered by the reply is empty, not the buffer contents. -/
theorem C1_drain_counterexample :
    mensajesDevueltos
      (mensajesRecibidos true
        [{ de := "x@c.us", cuerpo := "hola", esGrupo := false, nombreGrupo := "",
           autor := "", nombreAutor := "", numeroAutor := "", idMensaje := "id",
           marcaTiempo := "t" }]).1 ≠
      [{ de := "x@c.us", cuerpo := "hola", esGrupo := false, nombreGrupo := "",
         autor := "", nombreAutor := "", numeroAutor := "", idMensaje := "id",
         marcaTiempo := "t" }] := by decide

/-- C1 (amended): with limpiar=true the handler atomically empties the buffer
in the same operation and replies with the count of removed records -- the
records themselves are not returned -- so no record is ever delivered by two
drains; a drain with limpiar=true followed by one with limpiar=false yields
an empty sequence; with limpiar=false the reply is a snapshot and the buffer
is unchanged. -/
theorem C1_drain_amended (buf : List InfoMensaje) :
    (mensajesRecibidos true buf).2 = [] ∧
    (mensajesRecibidos true buf).1 = .limpiados buf.length ∧
    mensajesDevueltos (mensajesRecibidos true buf).1 = [] ∧
    mensajesDevueltos (mensajesRecibidos false (mensajesRecibidos true buf).2).1 = [] ∧
    (mensajesRecibidos false buf).2 = buf ∧
    mensajesDevueltos (mensajesRecibidos false buf).1 = buf :=
  ⟨rfl, rfl, rfl, rfl, rfl, rfl⟩

theorem ultimos_length_le (n : Nat) (l : List α) : (ultimos n l).length ≤ n := by
  unfold ultimos
  rw [List.length_drop]
  omega

theorem ultimos_eq_self {n : Nat} {l : List α} (h : l.length ≤ n) :
    ultimos n l = l := by
  unfold ultimos
  rw [Nat.sub_eq_zero_of_le h, List.drop_zero]

theorem ultimos_append_ultimos (n : Nat) (l r : List α) :
    ultimos n (ultimos n l ++ r) = ultimos n (l ++ r) := by
  unfold ultimos
  rw [← List.drop_append_of_le_length (Nat.sub_le _ _), List.drop_drop]
  congr 1
  simp only [List.length_append, List.length_drop]
  omega

theorem procesarMensaje_no_broadcast (buf : List InfoMensaje)
    (env : EntornoMensaje) (m : MensajeRaw) (h : m.«from» ≠ "status@broadcast") :
    procesarMensaje buf env m = ultimos 100 (buf ++ [construirInfoMensaje env m]) := by
  unfold procesarMensaje
  rw [if_neg h]
  by_cases hl : (buf ++ [construirInfoMensaje env m]).length > 100
  · rw [if_pos hl]
    rfl
  · rw [if_neg hl]
    exact (ultimos_eq_self (by omega)).symm

theorem procesarLista_ultimos (pares : List (EntornoMensaje × MensajeRaw))
    (buf : List InfoMensaje) (h : buf.length ≤ 100) :
    procesarLista buf pares = ultimos 100 (buf ++ agregados pares) := by
  induction pares generalizing buf with
  | nil =>
    rw [show agregados [] = [] from rfl, List.append_nil]
    exact (ultimos_eq_self h).symm
  | cons par resto ih =>
    by_cases hb : par.2.«from» = "status@broadcast"
    · have hpm : procesarMensaje buf par.1 par.2 = buf := by
        unfold procesarMensaje
        rw [if_pos hb]
      have hag : agregados (par :: resto) = agregados resto := by
        unfold agregados
        simp [hb]
      have h1 : procesarLista buf (par :: resto) =
          procesarLista (procesarMensaje buf par.1 par.2) resto := rfl
      rw [h1, hpm, ih buf h, hag]
    · have hpm := procesarMensaje_no_broadcast buf par.1 par.2 hb
      have hlen : (procesarMensaje buf par.1 par.2).length ≤ 100 := by
        rw [hpm]
        exact ultimos_length_le _ _
      have hag : agregados (par :: resto) =
          construirInfoMensaje par.1 par.2 :: agregados resto := by
        unfold agregados
        simp [hb]
      have h1 : procesarLista buf (par :: resto) =
          procesarLista (procesarMensaje buf par.1 par.2) resto := rfl
      rw [h1, ih _ hlen, hpm, ultimos_append_ultimos, hag]
      congr 1
      simp [List.append_assoc]

/-- C5: messages from the broadcast sender never enter the buffer; starting
from the empty buffer, a whole arrival sequence leaves exactly the appended
(non-broadcast) records in arrival order when there were at most 100 of
them, and exactly the last 100 of them in arrival order when there were
more. -/
theorem C5_buffer :
    (∀ buf env (m : MensajeRaw), m.«from» = "status@broadcast" →
      procesarMensaje buf env m = buf) ∧
    (∀ pares, (agregados pares).length ≤ 100 →
      procesarLista [] pares = agregados pares) ∧
    (∀ pares, 100 < (agregados pares).length →
      procesarLista [] pares =
        (agregados pares).drop ((agregados pares).length - 100)) := by
  refine ⟨?_, ?_, ?_⟩
  · intro buf env m h
    unfold procesarMensaje
    rw [if_pos h]
  · intro pares h
    rw [procesarLista_ultimos pares [] (by simp), List.nil_append]
    exact ultimos_eq_self h
  · intro pares h
    rw [procesarLista_ultimos pares [] (by simp), List.nil_append]
    rfl

/-- Witness for C5_buffer: one broadcast message is dropped; two appends
stay as they are; 101 appends of the same message keep the last 100. -/
theorem C5_buffer_witness :
    mensajeBroadcast.«from» = "status@broadcast" ∧
    procesarMensaje [] entornoTrivial mensajeBroadcast = [] ∧
    (agregados (List.replicate 2 (entornoTrivial, mensajeIndividual))).length ≤ 100 ∧
    procesarLista [] (List.replicate 2 (entornoTrivial, mensajeIndividual)) =
      agregados (List.replicate 2 (entornoTrivial, mensajeIndividual)) ∧
    100 < (agregados (List.replicate 101 (entornoTrivial, mensajeIndividual))).length ∧
    procesarLista [] (List.replicate 101 (entornoTrivial, mensajeIndividual)) =
      (agregados (List.replicate 101 (entornoTrivial, mensajeIndividual))).drop
        ((agregados (List.replicate 101 (entornoTrivial, mensajeIndividual))).length - 100) :=
  ⟨rfl,
   C5_buffer.1 [] entornoTrivial mensajeBroadcast rfl,
   by decide,
   C5_buffer.2.1 _ (by decide),
   by decide,
   C5_buffer.2.2 _ (by decide)⟩

/-- C3: false as stated.  For a registered individual destination with an
attachment, the handler calls cliente.isRegisteredUser -- a call to the
external messaging client -- before it checks the attachment's existence and
size, so the file checks do not precede every external-client call. -/
theorem C3_adjunto_counterexample :
    ¬ (∀ (env : EntornoEnvio) (destino : String) (esGrupo : Bool) (p : String),
        sinVerificacionDespues esLlamadaCliente
          (enviarMensaje env destino esGrupo (some p)).2 = true) := fun h =>
  absurd (h ⟨true, true, 0⟩ "5551234" false "a") (by decide)

/-- C3 (amended): whenever an attachment path is supplied, the file's
existence and size checks happen before the message-transmission call
cliente.sendMessage; for group destinations they even precede every
external-client call, but for individual destinations the registration query
cliente.isRegisteredUser is made before the file checks. -/
theorem C3_adjunto_amended (env : EntornoEnvio) (destino : String)
    (esGrupo : Bool) (p : String) :
    sinVerificacionDespues (fun e => decide (e = .envioCliente))
      (enviarMensaje env destino esGrupo (some p)).2 = true ∧
    (esGrupo = true → sinVerificacionDespues esLlamadaCliente
      (enviarMensaje env destino esGrupo (some p)).2 = true) := by
  obtain ⟨reg, ex, tam⟩ := env
  cases esGrupo <;> cases reg <;> cases ex <;>
    cases hv : validarNumeroTelefono destino <;>
    by_cases ht : tam > MAX_FILE_SIZE * 1024 * 1024 <;>
    simp [enviarMensaje, hv, ht, sinVerificacionDespues, esLlamadaCliente,
      esVerificacionArchivo]

/-- Witness for C3_adjunto_amended at a concrete group send with an existing
small attachment. -/
theorem C3_adjunto_amended_witness :
    sinVerificacionDespues (fun e => decide (e = .envioCliente))
      (enviarMensaje ⟨true, true, 0⟩ "123456789" true (some "a")).2 = true ∧
    sinVerificacionDespues esLlamadaCliente
      (enviarMensaje ⟨true, true, 0⟩ "123456789" true (some "a")).2 = true :=
  ⟨(C3_adjunto_amended ⟨true, true, 0⟩ "123456789" true "a").1,
   (C3_adjunto_amended ⟨true, true, 0⟩ "123456789" true "a").2 rfl⟩

/-- C6: false as stated.  The per-route catch blocks leak the exception's
message: the 500 body of /api/enviar-mensaje embeds error.message after a
fixed prose, and the 500 body of /api/grupos is error.message itself, so the
body is not a generic message independent of the internal exception text. -/
theorem C6_errores_counterexample :
    capturaEnviarMensaje ⟨.otro, "ECONNRESET"⟩ ≠ capturaEnviarMensaje ⟨.otro, ""⟩ ∧
    (capturaEnviarMensaje ⟨.otro, "ECONNRESET"⟩).error =
      "Error al enviar mensaje: ECONNRESET" ∧
    (capturaGrupos ⟨.otro, "ECONNRESET"⟩).error = "ECONNRESET" := by decide

/-- C6 (amended): only the top-level error handler is generic: it answers
500 with the fixed body 'Error interno del servidor' (413 with a fixed body
for oversized payloads), independent of the exception's message text; the
route-level catch blocks answer 500 but embed error.message in the body
(prefixed for /api/enviar-mensaje, verbatim for /api/grupos and its
siblings). -/
theorem C6_errores_amended :
    (∀ e1 e2 : ErrorInterno, e1.tipo = e2.tipo →
      manejadorErrores e1 = manejadorErrores e2) ∧
    (∀ e : ErrorInterno, (manejadorErrores e).codigo = 500 ∨
      (manejadorErrores e).codigo = 413) ∧
    (∀ e : ErrorInterno, e.tipo = .otro → manejadorErrores e =
      { codigo := 500, exito := false, error := "Error interno del servidor" }) ∧
    (∀ e : ErrorInterno, (capturaEnviarMensaje e).codigo = 500 ∧
      (capturaEnviarMensaje e).error = "Error al enviar mensaje: " ++ e.mensaje) ∧
    (∀ e : ErrorInterno, (capturaGrupos e).codigo = 500 ∧
      (capturaGrupos e).error = e.mensaje) := by
  refine ⟨?_, ?_, ?_, fun e => ⟨rfl, rfl⟩, fun e => ⟨rfl, rfl⟩⟩
  · intro e1 e2 h
    obtain ⟨t1, m1⟩ := e1
    obtain ⟨t2, m2⟩ := e2
    cases t1 <;> cases t2 <;> simp_all [manejadorErrores]
  · intro e
    obtain ⟨t, m⟩ := e
    cases t <;> simp [manejadorErrores]
  · intro e h
    simp [manejadorErrores, h]

/-- Witness for C6_errores_amended at concrete exceptions. -/
theorem C6_errores_amended_witness :
    (⟨.otro, "boom"⟩ : ErrorInterno).tipo = (⟨.otro, "crash"⟩ : ErrorInterno).tipo ∧
    manejadorErrores ⟨.otro, "boom"⟩ = manejadorErrores ⟨.otro, "crash"⟩ ∧
    manejadorErrores ⟨.otro, "boom"⟩ =
      { codigo := 500, exito := false, error := "Error interno del servidor" } ∧
    (capturaEnviarMensaje ⟨.otro, "boom"⟩).codigo = 500 ∧
    (capturaGrupos ⟨.otro, "boom"⟩).error = "boom" :=
  ⟨rfl,
   C6_errores_amended.1 ⟨.otro, "boom"⟩ ⟨.otro, "crash"⟩ rfl,
   C6_errores_amended.2.2.1 ⟨.otro, "boom"⟩ rfl,
   (C6_errores_amended.2.2.2.1 ⟨.otro, "boom"⟩).1,
   (C6_errores_amended.2.2.2.2 ⟨.otro, "boom"⟩).2⟩

/-- C9: for a request that passes authentication while estadoBot is not
'conectado', the send route is stopped by requiereConexion with a 503 whose
body carries the current state, while the inbound-messages route -- whose
middleware chain has no requiereConexion -- still serves the buffered
messages for every server state. -/
theorem C9_no_conectado (secreto : String) (ahora : Nat)
    (encabezado : Option TokenRecibido) (s : EstadoServidor) (env : EntornoEnvio)
    (destino : String) (esGrupo : Bool) (rutaArchivo : Option String)
    (limpiar : Bool) (buf : List InfoMensaje)
    (hAuth : requiereAutenticacion secreto ahora encabezado = none)
    (hEstado : s.estadoBot ≠ .conectado) :
    rutaEnviarMensaje secreto ahora encabezado s env destino esGrupo rutaArchivo =
      { codigo := 503, exito := false, error := "WhatsApp no está conectado",
        estado := some s.estadoBot } ∧
    rutaMensajesRecibidos secreto ahora encabezado s limpiar buf =
      (.inr (mensajesRecibidos limpiar buf).1, (mensajesRecibidos limpiar buf).2) := by
  have hConn : requiereConexion s = some { codigo := 503, exito := false, error := "WhatsApp no está conectado", estado := some s.estadoBot } := by
    unfold requiereConexion
    rw [if_pos (Or.inr hEstado)]
  constructor
  · unfold rutaEnviarMensaje
    rw [hAuth, hConn]
  · unfold rutaMensajesRecibidos
    rw [hAuth]

/-- Witness for C9_no_conectado: a valid freshly issued token against the
initial (not connected) server state. -/
theorem C9_no_conectado_witness :
    requiereAutenticacion "s" 0
      (some (.valido (generarToken "s" 0 ⟨"api_user", ["enviar_mensajes", "leer_mensajes"]⟩))) = none ∧
    estadoInicial.estadoBot ≠ .conectado ∧
    rutaEnviarMensaje "s" 0
      (some (.valido (generarToken "s" 0 ⟨"api_user", ["enviar_mensajes", "leer_mensajes"]⟩)))
      estadoInicial ⟨true, true, 0⟩ "5551234" false none =
      { codigo := 503, exito := false, error := "WhatsApp no está conectado",
        estado := some estadoInicial.estadoBot } ∧
    rutaMensajesRecibidos "s" 0
      (some (.valido (generarToken "s" 0 ⟨"api_user", ["enviar_mensajes", "leer_mensajes"]⟩)))
      estadoInicial false
      [{ de := "x@c.us", cuerpo := "hola", esGrupo := false, nombreGrupo := "",
         autor := "", nombreAutor := "", numeroAutor := "", idMensaje := "id",
         marcaTiempo := "t" }] =
      (.inr (.instantanea
        [{ de := "x@c.us", cuerpo := "hola", esGrupo := false, nombreGrupo := "",
           autor := "", nombreAutor := "", numeroAutor := "", idMensaje := "id",
           marcaTiempo := "t" }]),
       [{ de := "x@c.us", cuerpo := "hola", esGrupo := false, nombreGrupo := "",
          autor := "", nombreAutor := "", numeroAutor := "", idMensaje := "id",
          marcaTiempo := "t" }]) :=
  ⟨by decide, by decide,
   (C9_no_conectado "s" 0
     (some (.valido (generarToken "s" 0 ⟨"api_user", ["enviar_mensajes", "leer_mensajes"]⟩)))
     estadoInicial ⟨true, true, 0⟩ "5551234" false none false
     [{ de := "x@c.us", cuerpo := "hola", esGrupo := false, nombreGrupo := "",
        autor := "", nombreAutor := "", numeroAutor := "", idMensaje := "id",
        marcaTiempo := "t" }] (by decide) (by decide)).1,
   (C9_no_conectado "s" 0
     (some (.valido (generarToken "s" 0 ⟨"api_user", ["enviar_mensajes", "leer_mensajes"]⟩)))
     estadoInicial ⟨true, true, 0⟩ "5551234" false none false
     [{ de := "x@c.us", cuerpo := "hola", esGrupo := false, nombreGrupo := "",
        autor := "", nombreAutor := "", numeroAutor := "", idMensaje := "id",
        marcaTiempo := "t" }] (by decide) (by decide)).2⟩

theorem requiereAutenticacion_valido (secreto : String) (ahora : Nat)
    (t : TokenJWT) :
    requiereAutenticacion secreto ahora (some (.valido t)) =
      if t.firmaSecreto = secreto ∧ ahora < t.exp then none
      else some { codigo := 401, exito := false, error := "Token inválido o expirado" } := by
  have hver : verificarToken secreto ahora (.valido t) =
      if t.firmaSecreto = secreto ∧ ahora < t.exp then some t.datos else none := by
    by_cases hf : t.firmaSecreto = secreto
    · by_cases he : ahora ≥ t.exp
      · rw [if_neg (by omega)]
        simp [verificarToken, jwtVerify, hf, he]
      · rw [if_pos ⟨hf, by omega⟩]
        simp [verificarToken, jwtVerify, hf, he]
    · rw [if_neg (by tauto)]
      simp [verificarToken, jwtVerify, hf]
  have hdef : requiereAutenticacion secreto ahora (some (.valido t)) =
      (match verificarToken secreto ahora (.valido t) with
        | none => some { codigo := 401, exito := false, error := "Token inválido o expirado" }
        | some _ => none) := rfl
  rw [hdef, hver]
  by_cases h : t.firmaSecreto = secreto ∧ ahora < t.exp
  · rw [if_pos h, if_pos h]
  · rw [if_neg h, if_neg h]

/-- C10: every protected route admits a presented token exactly when its
signature matches the configured secret and it is unexpired; the permisos
list embedded in the token is never consulted: replacing it by any other
list -- including the empty one -- changes neither the admission decision
nor any route's response. -/
theorem C10_permisos (secreto : String) (ahora : Nat) (t : TokenJWT)
    (ps : List String) :
    (requiereAutenticacion secreto ahora (some (.valido t)) = none ↔
      t.firmaSecreto = secreto ∧ ahora < t.exp) ∧
    (∀ s env destino esGrupo rutaArchivo,
      rutaEnviarMensaje secreto ahora (some (.valido (conPermisos t ps))) s env
          destino esGrupo rutaArchivo =
        rutaEnviarMensaje secreto ahora (some (.valido t)) s env destino esGrupo
          rutaArchivo) ∧
    (∀ s limpiar buf,
      rutaMensajesRecibidos secreto ahora (some (.valido (conPermisos t ps))) s
          limpiar buf =
        rutaMensajesRecibidos secreto ahora (some (.valido t)) s limpiar buf) := by
  have hcp : requiereAutenticacion secreto ahora (some (.valido (conPermisos t ps))) =
      requiereAutenticacion secreto ahora (some (.valido t)) := by
    rw [requiereAutenticacion_valido, requiereAutenticacion_valido]
    simp [conPermisos]
  refine ⟨?_, ?_, ?_⟩
  · rw [requiereAutenticacion_valido]
    by_cases h : t.firmaSecreto = secreto ∧ ahora < t.exp
    · rw [if_pos h]
      simp [h]
    · rw [if_neg h]
      simp [h]
  · intro s env destino esGrupo rutaArchivo
    unfold rutaEnviarMensaje
    rw [hcp]
  · intro s limpiar buf
    unfold rutaMensajesRecibidos
    rw [hcp]

/-- Witness for C10_permisos: a freshly issued token is admitted, and
stripping its permisos list changes no route answer. -/
theorem C10_permisos_witness :
    requiereAutenticacion "s" 0
      (some (.valido (generarToken "s" 0 ⟨"api_user", ["enviar_mensajes", "leer_mensajes"]⟩))) = none ∧
    (generarToken "s" 0 ⟨"api_user", ["enviar_mensajes", "leer_mensajes"]⟩).firmaSecreto = "s" ∧
    (0 : Nat) < (generarToken "s" 0 ⟨"api_user", ["enviar_mensajes", "leer_mensajes"]⟩).exp ∧
    rutaEnviarMensaje "s" 0
      (some (.valido (conPermisos
        (generarToken "s" 0 ⟨"api_user", ["enviar_mensajes", "leer_mensajes"]⟩) [])))
      estadoInicial ⟨true, true, 0⟩ "5551234" false none =
    rutaEnviarMensaje "s" 0
      (some (.valido (generarToken "s" 0 ⟨"api_user", ["enviar_mensajes", "leer_mensajes"]⟩)))
      estadoInicial ⟨true, true, 0⟩ "5551234" false none ∧
    rutaMensajesRecibidos "s" 0
      (some (.valido (conPermisos
        (generarToken "s" 0 ⟨"api_user", ["enviar_mensajes", "leer_mensajes"]⟩) [])))
      estadoInicial false [] =
    rutaMensajesRecibidos "s" 0
      (some (.valido (generarToken "s" 0 ⟨"api_user", ["enviar_mensajes", "leer_mensajes"]⟩)))
      estadoInicial false [] :=
  ⟨(C10_permisos "s" 0 (generarToken "s" 0 ⟨"api_user", ["enviar_mensajes", "leer_mensajes"]⟩)
      []).1.mpr ⟨by decide, by decide⟩,
   by decide, by decide,
   (C10_permisos "s" 0 (generarToken "s" 0 ⟨"api_user", ["enviar_mensajes", "leer_mensajes"]⟩)
      []).2.1 estadoInicial ⟨true, true, 0⟩ "5551234" false none,
   (C10_permisos "s" 0 (generarToken "s" 0 ⟨"api_user", ["enviar_mensajes", "leer_mensajes"]⟩)
      []).2.2 estadoInicial false []⟩
